import Mathlib

/-!
Verification development for the Inbox Party waitlist API server
(`backend/server.py`).

The server is a single-file Python HTTP API.  We give a shallow embedding:

* Python `str` values are Lean `String`s; the Python string primitives the
  server uses (`strip`, `lower`, `isdigit`, `int(...)`, `replace`,
  substring tests, `str(...)` coercion) are modelled character-exactly for
  ASCII data as executable Lean functions.
* JSON values produced by `json.loads` are the inductive `JVal`; a request
  body that fails JSON decoding is modelled as `none`.
* The database (PostgreSQL or SQLite — the spec requires both variants to
  behave identically) is modelled as `Store`: a list of rows in insertion
  order plus a clock supplying the server-assigned `created_at`
  timestamps, together with a `failing` flag used to model a storage
  backend whose operations raise.  `ORDER BY created_at DESC` is modelled
  by an explicit descending sort.
* A Python exception that escapes the handler is `Except.error`; the
  handler functions return `Except PyFault _`, and an uncaught exception
  propagates by monadic/match plumbing exactly where the source has no
  `try`/`except`.
-/

/-! ## Python string primitives (ASCII-faithful models) -/

/-- The characters stripped by Python `str.strip()` with no argument and
matched by `\s` in the `re` module, restricted to ASCII:
space, tab, newline, carriage return, vertical tab, form feed. -/
def isPySpace (c : Char) : Bool :=
  c == ' ' || c == '\t' || c == '\n' || c == '\r' || c == '\x0b' || c == '\x0c'

/-- `str.strip()` on the character list: drop whitespace from both ends. -/
def pyStripList (l : List Char) : List Char :=
  ((l.dropWhile isPySpace).reverse.dropWhile isPySpace).reverse

/-- Python `str.strip()` (no argument). -/
def pyStrip (s : String) : String :=
  ⟨pyStripList s.data⟩

/-- Python `str.lower()` on an ASCII character. -/
def pyLower (s : String) : String :=
  ⟨s.data.map Char.toLower⟩

/-- Python `str.isdigit()` restricted to ASCII: nonempty and all `0`-`9`. -/
def pyIsdigit (s : String) : Bool :=
  !s.data.isEmpty && s.data.all Char.isDigit

/-- Python `str.rstrip("/")`: drop trailing slashes. -/
def pyRstripSlash (s : String) : String :=
  ⟨(s.data.reverse.dropWhile (· == '/')).reverse⟩

/-- Grammar of the digit part accepted by Python `int(...)` after the
optional sign: `digit ( underscore? digit )*` (single underscores are
allowed strictly between digits). This checks the tail after the first
digit has been seen. -/
def pyDigitsTail : List Char → Bool
  | [] => true
  | '_' :: rest =>
    match rest with
    | c :: r2 => c.isDigit && pyDigitsTail r2
    | [] => false
  | c :: rest => c.isDigit && pyDigitsTail rest

/-- Nonempty digit run with optional single interior underscores,
as accepted by Python `int(...)`. -/
def pyDigitsOk : List Char → Bool
  | [] => false
  | c :: rest => c.isDigit && pyDigitsTail rest

/-- Numeric value of a digit run, skipping underscores. -/
def pyDigitsVal (l : List Char) : Nat :=
  l.foldl (fun a c => if c == '_' then a else a * 10 + (c.toNat - 48)) 0

/-- Python `int(s)` for a decoded query-string value (ASCII): strips
surrounding whitespace, allows an optional sign, then a digit run with
optional interior underscores; `none` models `ValueError`. -/
def pyInt (s : String) : Option Int :=
  match pyStripList s.data with
  | '+' :: rest => if pyDigitsOk rest then some (pyDigitsVal rest) else none
  | '-' :: rest => if pyDigitsOk rest then some (-(pyDigitsVal rest : Int)) else none
  | l => if pyDigitsOk l then some (pyDigitsVal l) else none

/-- `needle in haystack` on Python strings (contiguous substring test). -/
def containsSub (hay needle : List Char) : Bool :=
  match hay with
  | [] => needle.isEmpty
  | _ :: t => needle.isPrefixOf hay || containsSub t needle

/-- Python `value.replace(chr(34), chr(34)*2)`: double every double quote. -/
def escQuote : List Char → List Char
  | [] => []
  | c :: r => if c == '"' then c :: c :: escQuote r else c :: escQuote r

/-! ## The email regular expression

`EMAIL_PATTERN = re.compile(r"^[^\s@]+@[^\s@]+\.[^\s@]+$")`, applied with
`.match` to an already-stripped string (so `$` is end-of-string). -/

/-- A character matched by the `[^\s@]` class of `EMAIL_PATTERN`. -/
def atomChar (c : Char) : Bool :=
  !isPySpace c && c != '@'

/-- Backtracking matcher for `[^\s@]+` followed by a continuation:
consumes one or more atom characters, then tries the continuation at
every split point. -/
def matchPlus (k : List Char → Bool) : List Char → Bool
  | [] => false
  | c :: rest => atomChar c && (k rest || matchPlus k rest)

/-- Continuation after the literal `.`: `[^\s@]+$`. -/
def emailTailK (r4 : List Char) : Bool :=
  matchPlus (fun r5 => r5.isEmpty) r4

/-- Continuation after the second `[^\s@]+`: `\.[^\s@]+$`. -/
def emailDotK : List Char → Bool
  | c :: r4 => c == '.' && emailTailK r4
  | [] => false

/-- Continuation after the first `[^\s@]+`: `@[^\s@]+\.[^\s@]+$`. -/
def emailAtK : List Char → Bool
  | c :: r2 => c == '@' && matchPlus emailDotK r2
  | [] => false

/-- Whether `EMAIL_PATTERN` matches the whole string. -/
def emailPatternMatch (s : String) : Bool :=
  matchPlus emailAtK s.data

/-! ## JSON values and Python `str(...)` coercion -/

/-- A value produced by Python `json.loads`: `None`, `bool`, `int`,
`str`, `list`, `dict` (floats do not occur in the behaviours under
study and are omitted).  `null` doubles as Python `None`, which is what
`dict.get` returns for a missing key. -/
inductive JVal : Type where
  | null : JVal
  | bool (b : Bool) : JVal
  | num (n : Int) : JVal
  | str (s : String) : JVal
  | arr (xs : List JVal) : JVal
  | obj (fields : List (String × JVal)) : JVal

/-- One escaped character of Python `repr` of a string, given the chosen
quote character (ASCII model): backslash and the quote are escaped, the
common control characters use their short escapes, other control
characters use a hexadecimal escape. -/
def pyReprChar (q : Char) (c : Char) : List Char :=
  if c == '\\' then ['\\', '\\']
  else if c == q then ['\\', q]
  else if c == '\n' then ['\\', 'n']
  else if c == '\r' then ['\\', 'r']
  else if c == '\t' then ['\\', 't']
  else if c.toNat < 32 || c.toNat == 127 then
    ['\\', 'x', (Nat.digitChar (c.toNat / 16)), (Nat.digitChar (c.toNat % 16))]
  else [c]

/-- Python `repr` of a string (ASCII model): single quotes unless the
string contains a single quote and no double quote, in which case double
quotes are used. -/
def pyReprString (s : String) : String :=
  let sq : Char := Char.ofNat 39
  let q : Char := if s.data.contains sq && !s.data.contains '"' then '"' else sq
  ⟨q :: s.data.foldr (fun c acc => pyReprChar q c ++ acc) [q]⟩

/-- Python `repr` of a decoded JSON value (ASCII model). -/
def pyRepr : JVal → String
  | .null => "None"
  | .bool b => if b then "True" else "False"
  | .num n => toString n
  | .str s => pyReprString s
  | .arr xs =>
    "[" ++ String.intercalate ", " (xs.attach.map (fun x => pyRepr x.1)) ++ "]"
  | .obj fs =>
    "\x7b" ++
      String.intercalate ", "
        (fs.attach.map (fun p => pyReprString p.1.1 ++ ": " ++ pyRepr p.1.2)) ++
      "\x7d"
termination_by v => sizeOf v
decreasing_by
  · have := List.sizeOf_lt_of_mem x.2
    simp only [JVal.arr.sizeOf_spec]
    omega
  · have h1 := List.sizeOf_lt_of_mem p.2
    have h2 : sizeOf p.1.2 < sizeOf p.1 := by
      obtain ⟨a, b⟩ := p.1
      simp only [Prod.mk.sizeOf_spec]
      omega
    simp only [JVal.obj.sizeOf_spec]
    omega

/-- Python `str(value)` on a decoded JSON value: identity on strings,
`repr`-based rendering otherwise (ASCII model). -/
def pyStr : JVal → String
  | .str s => s
  | v => pyRepr v

/-! ## Data model -/

/-- A stored row of the `waitlist` table.  `created_at` is the
server-assigned creation timestamp (`DEFAULT now` / `datetime('now')`),
modelled as a natural number drawn from the store's clock. -/
structure Row : Type where
  name : String
  email : String
  created_at : Nat
deriving DecidableEq, Repr

/-- A `(name, email, created_at)` dictionary as returned by
`waitlist_entries` to the handler: `created_at` is rendered as a string
(`str(row["created_at"])` / SQLite `TEXT`). -/
structure EntryDict : Type where
  name : String
  email : String
  created_at : String
deriving DecidableEq, Repr

/-- The state of the storage backend: rows in insertion order, the clock
supplying the next `created_at`, and a fault-injection flag modelling a
backend whose operations raise (connection failure etc.). -/
structure Store : Type where
  rows : List Row
  clock : Nat
  failing : Bool
deriving DecidableEq, Repr

/-- A Python exception escaping a piece of handler code: either a
database error carrying the exception text, or the `AttributeError`
raised by `payload.get` when the decoded JSON body is not a dict. -/
inductive PyFault : Type where
  | db (msg : String) : PyFault
  | attrError : PyFault
deriving DecidableEq, Repr

/-- `str(e)` for a modelled exception. -/
def faultText : PyFault → String
  | .db msg => msg
  | .attrError => "AttributeError"

/-! ## Storage operations (`waitlist_count`, `waitlist_entries`,
`insert_waitlist_record`) -/

/-- `SELECT COUNT(*) FROM waitlist`. -/
def waitlist_count (s : Store) : Except PyFault Nat :=
  if s.failing then .error (.db "connection failure")
  else .ok s.rows.length

/-- Insert a row into a list that is already sorted by `created_at`
descending, keeping it sorted (the comparison used by
`ORDER BY created_at DESC`). -/
def insertDesc (x : Row) : List Row → List Row
  | [] => [x]
  | y :: ys => if y.created_at ≤ x.created_at then x :: y :: ys else y :: insertDesc x ys

/-- Sort rows by `created_at` descending: `ORDER BY created_at DESC`
(PostgreSQL) / `ORDER BY datetime(created_at) DESC` (SQLite). -/
def sortDesc : List Row → List Row
  | [] => []
  | x :: xs => insertDesc x (sortDesc xs)

/-- The row dictionary handed back to the handler. -/
def rowDict (r : Row) : EntryDict :=
  ⟨r.name, r.email, toString r.created_at⟩

/-- `waitlist_entries(limit)`: newest first; `LIMIT` applied only when
`limit is not None and limit > 0`. -/
def waitlist_entries (limit : Option Int) (s : Store) : Except PyFault (List EntryDict) :=
  if s.failing then .error (.db "connection failure")
  else
    .ok ((match limit with
          | some l => if 0 < l then (sortDesc s.rows).take l.toNat else sortDesc s.rows
          | none => sortDesc s.rows).map rowDict)

/-- `insert_waitlist_record`: inserts a new row with server-assigned
timestamp; the `UNIQUE` constraint on `email` makes a duplicate insert
raise, with the SQLite/`psycopg2` exception text containing
"unique"/"duplicate".  A failed insert leaves the table unchanged
(the transaction rolls back). -/
def insert_waitlist_record (s : Store) (name email : String) : Except PyFault Store :=
  if s.failing then .error (.db "connection failure")
  else if s.rows.any (fun r => r.email == email) then
    .error (.db "UNIQUE constraint failed: waitlist.email")
  else
    .ok ⟨s.rows ++ [⟨name, email, s.clock⟩], s.clock + 1, false⟩

/-! ## Responses -/

/-- A response body: JSON (structured, before `json.dumps`), CSV text,
or empty (`OPTIONS` preflight). -/
inductive RBody : Type where
  | json (j : JVal) : RBody
  | csv (data : String) : RBody
  | empty : RBody

/-- An HTTP response as assembled by the handler: status code, the
`Content-Type` and `Content-Disposition` headers when sent, the
`Access-Control-Allow-Origin` header, and the body. -/
structure Response : Type where
  status : Nat
  contentType : Option String
  contentDisposition : Option String
  allowOrigin : String
  body : RBody

/-! ## Handler helpers -/

/-- `WaitlistHandler._allowed_origin`: `origin = self.headers.get("Origin")`
(`none` when the header is absent); `if not origin` is Python truthiness,
so both an absent header and an empty-string header yield the wildcard. -/
def allowed_origin (origin : Option String) : String :=
  match origin with
  | none => "*"
  | some o => if o = "" then "*" else if o = "null" then "*" else o

/-- `WaitlistHandler._json_response`. -/
def json_response (origin : Option String) (body : JVal) (status : Nat) : Response :=
  ⟨status, some "application/json", none, allowed_origin origin, .json body⟩

/-- One CSV cell after escaping: wrapped in double quotes iff the
(escaped) value contains a comma or a double quote. -/
def csvCell (value : String) : String :=
  if value.data.contains ',' || value.data.contains '"' then
    "\"" ++ value ++ "\""
  else value

/-- Quote-escape one field of an entry. -/
def csvEscape (s : String) : String :=
  ⟨escQuote s.data⟩

/-- One CSV data row: the three fields quote-escaped, then each wrapped
if needed, joined with commas. -/
def csvLine (e : EntryDict) : String :=
  String.intercalate "," ([csvEscape e.name, csvEscape e.email, csvEscape e.created_at].map csvCell)

/-- The CSV body produced by `WaitlistHandler._send_csv`: header row then
one row per entry, joined with newlines. -/
def csvData (entries : List EntryDict) : String :=
  String.intercalate "\n"
    (String.intercalate "," ["name", "email", "created_at"] :: entries.map csvLine)

/-- `WaitlistHandler._send_csv` as a response. -/
def send_csv (origin : Option String) (entries : List EntryDict) : Response :=
  ⟨200, some "text/csv; charset=utf-8",
    some "attachment; filename=\"inbox-party-waitlist.csv\"",
    allowed_origin origin, .csv (csvData entries)⟩

/-! ## Sanitizers -/

/-- `WaitlistHandler._sanitize_name`: `None` is invalid; otherwise the
value is coerced with `str(...)`, stripped, and required to have length
at least 2. -/
def sanitize_name (value : JVal) : Option String :=
  match value with
  | .null => none
  | v =>
    let cleaned := pyStrip (pyStr v)
    if 2 ≤ cleaned.length then some cleaned else none

/-- `WaitlistHandler._sanitize_email`: `None` is invalid; otherwise the
value is coerced with `str(...)`, stripped, lower-cased, and required to
match `EMAIL_PATTERN`. -/
def sanitize_email (value : JVal) : Option String :=
  match value with
  | .null => none
  | v =>
    let candidate := pyLower (pyStrip (pyStr v))
    if emailPatternMatch candidate then some candidate else none

/-! ## Requests and routing -/

/-- A GET request after `urlparse`/`parse_qs`: the path component, the
query dictionary, and the `Origin` header.  `parse_qs` maps each present
key to a nonempty list of values and every use in the source takes
element `[0]`, so the query is modelled as the first value per key. -/
structure GetRequest : Type where
  path : String
  query : List (String × String)
  origin : Option String

/-- A POST request: the raw request path (the source compares
`self.path` without URL-parsing it), the `Content-Length` header, the
JSON decode of the body (`none` models `json.JSONDecodeError`), and the
`Origin` header. -/
structure PostRequest : Type where
  path : String
  contentLength : Option String
  payload : Option JVal
  origin : Option String

/-- First value for a key in the parsed query string. -/
def qlookup (q : List (String × String)) (k : String) : Option String :=
  (q.find? (fun p => p.1 == k)).map (fun p => p.2)

/-- `parsed.path.rstrip("/") or "/"`. -/
def pathNorm (s : String) : String :=
  let t := pyRstripSlash s
  if t = "" then "/" else t

/-- The `limit` query-parameter handling in `do_GET`:
`int(query["limit"][0])` under `try`, with non-positive values and
parse failures both becoming `None`. -/
def limitOf (q : List (String × String)) : Option Int :=
  match qlookup q "limit" with
  | none => none
  | some v =>
    match pyInt v with
    | none => none
    | some i => if i ≤ 0 then none else some i

/-- `query.get("format", ["json"])[0].lower()`. -/
def formatOf (q : List (String × String)) : String :=
  pyLower ((qlookup q "format").getD "json")

/-- `dict.get(key)` on a decoded JSON object: the entry for `key`
(`None` when missing); for duplicate keys `json.loads` keeps the last
occurrence, hence the lookup on the reversed field list. -/
def dictGet (fs : List (String × JVal)) (k : String) : JVal :=
  (((fs.reverse.find? (fun p => p.1 == k)).map (fun p => p.2)).getD .null)

/-- `payload.get(key)`: returns the dict entry, and raises
`AttributeError` when the decoded value is not a dict. -/
def pyGet (v : JVal) (k : String) : Except PyFault JVal :=
  match v with
  | .obj fs => .ok (dictGet fs k)
  | _ => .error .attrError

/-- JSON rendering of one entry in the `entries` list. -/
def entryJson (e : EntryDict) : JVal :=
  .obj [("name", .str e.name), ("email", .str e.email), ("created_at", .str e.created_at)]

/-- JSON rendering of the `limit` field of the entries response. -/
def limitJson : Option Int → JVal
  | none => .null
  | some i => .num i

/-! ## HTTP methods -/

/-- `WaitlistHandler.do_GET`.  The source has no `try`/`except`, so a
storage fault propagates (`Except.error`). -/
def do_GET (req : GetRequest) (s : Store) : Except PyFault Response :=
  if pathNorm req.path = "/health" ∨ pathNorm req.path = "/healthz" then
    .ok (json_response req.origin (.obj [("status", .str "ok")]) 200)
  else if pathNorm req.path = "/api/waitlist" then
    match waitlist_count s with
    | .error f => .error f
    | .ok c => .ok (json_response req.origin (.obj [("count", .num (c : Int))]) 200)
  else if pathNorm req.path = "/api/waitlist/entries" then
    match waitlist_entries (limitOf req.query) s with
    | .error f => .error f
    | .ok entries =>
      if formatOf req.query = "csv" then
        .ok (send_csv req.origin entries)
      else
        match waitlist_count s with
        | .error f => .error f
        | .ok c =>
          .ok (json_response req.origin
            (.obj [("entries", .arr (entries.map entryJson)),
                   ("count", .num (c : Int)),
                   ("limit", limitJson (limitOf req.query))]) 200)
  else
    .ok (json_response req.origin (.obj [("error", .str "Not found")]) 404)

/-- `WaitlistHandler.do_OPTIONS`: 204, CORS headers, no body. -/
def do_OPTIONS (origin : Option String) : Response :=
  ⟨204, none, none, allowed_origin origin, .empty⟩

/-- `WaitlistHandler.do_POST`.  Only the `insert_waitlist_record` call is
inside `try`/`except`; exceptions elsewhere (including `payload.get` on
a non-dict body and `waitlist_count` while shaping the 409/201 bodies)
propagate. -/
def do_POST (req : PostRequest) (s : Store) : Except PyFault (Response × Store) :=
  if pyRstripSlash req.path ≠ "/api/waitlist" then
    .ok (json_response req.origin (.obj [("error", .str "Not found")]) 404, s)
  else
    match req.contentLength with
    | none => .ok (json_response req.origin (.obj [("error", .str "Missing Content-Length")]) 411, s)
    | some h =>
      if !pyIsdigit h then
        .ok (json_response req.origin (.obj [("error", .str "Missing Content-Length")]) 411, s)
      else
        match req.payload with
        | none => .ok (json_response req.origin (.obj [("error", .str "Invalid JSON payload")]) 400, s)
        | some p =>
          match pyGet p "name" with
          | .error f => .error f
          | .ok nameRaw =>
            match pyGet p "email" with
            | .error f => .error f
            | .ok emailRaw =>
              match sanitize_name nameRaw with
              | none =>
                .ok (json_response req.origin
                  (.obj [("error", .str "Please share your name so we can personalize the rollout.")]) 400, s)
              | some n =>
                match sanitize_email emailRaw with
                | none =>
                  .ok (json_response req.origin
                    (.obj [("error", .str "A valid email is required to join the waitlist.")]) 400, s)
                | some e =>
                  match insert_waitlist_record s n e with
                  | .error f =>
                    if containsSub (pyLower (faultText f)).data "unique".data ||
                       containsSub (pyLower (faultText f)).data "duplicate".data then
                      match waitlist_count s with
                      | .error f2 => .error f2
                      | .ok c =>
                        .ok (json_response req.origin
                          (.obj [("message", .str "This email is already on the waitlist."),
                                 ("count", .num (c : Int))]) 409, s)
                    else
                      .ok (json_response req.origin
                        (.obj [("error", .str "We hit a snag saving your request.")]) 500, s)
                  | .ok s2 =>
                    match waitlist_count s2 with
                    | .error f2 => .error f2
                    | .ok c =>
                      .ok (json_response req.origin
                        (.obj [("message", .str "You\x27re on the waitlist! We\x27ll reach out as invites roll out."),
                               ("email", .str e),
                               ("count", .num (c : Int))]) 201, s2)

/-! ## Specification-side definitions

These follow the wording of the specification / claims, to be compared
with the source-derived definitions above. -/

/-- The email shape in the specification's words: one or more
non-whitespace-non-`@` characters, then `@`, then one or more
non-whitespace-non-`@` characters, then `.`, then one or more
non-whitespace-non-`@` characters. -/
def emailShape (s : String) : Prop :=
  ∃ l m t : List Char,
    s.data = l ++ '@' :: (m ++ '.' :: t) ∧
    l ≠ [] ∧ m ≠ [] ∧ t ≠ [] ∧
    (∀ c ∈ l, atomChar c) ∧ (∀ c ∈ m, atomChar c) ∧ (∀ c ∈ t, atomChar c)

/-- One CSV cell in the specification's words: the field is wrapped in
surrounding double quotes (with internal quotes doubled) exactly when it
contains a comma or a double quote, and emitted bare otherwise. -/
def csvCellSpec (s : String) : String :=
  if ',' ∈ s.data ∨ '"' ∈ s.data then "\"" ++ csvEscape s ++ "\"" else s

/-- One CSV row in the specification's words. -/
def csvLineSpec (e : EntryDict) : String :=
  String.intercalate "," [csvCellSpec e.name, csvCellSpec e.email, csvCellSpec e.created_at]

/-- The CSV body in the specification's words. -/
def csvBodySpec (entries : List EntryDict) : String :=
  String.intercalate "\n" ("name,email,created_at" :: entries.map csvLineSpec)

/-- The CORS policy in the (amended) specification's words: the request's
`Origin` header is echoed verbatim unless it is absent, empty, or the
literal string `null`, in which case `*` is used. -/
def allowedOriginSpec : Option String → String
  | none => "*"
  | some s => if s = "" ∨ s = "null" then "*" else s

/-- The POST failure checks in their priority order (amended claim C2):
(1) missing or non-numeric `Content-Length`; (2) body not valid JSON;
(2b) body valid JSON but not an object, which makes `payload.get` raise;
(3) name fails sanitization; (4) email fails sanitization. `none` means
no check fails (or the path does not match `/api/waitlist`). -/
inductive PostCheckFailure : Type where
  | badLength : PostCheckFailure
  | badJson : PostCheckFailure
  | notDict : PostCheckFailure
  | badName : PostCheckFailure
  | badEmail : PostCheckFailure
deriving DecidableEq, Repr

/-- The first failing POST check, in the claimed priority order. -/
def postFirstFailure (req : PostRequest) : Option PostCheckFailure :=
  if pyRstripSlash req.path ≠ "/api/waitlist" then none
  else
    match req.contentLength with
    | none => some .badLength
    | some h =>
      if !pyIsdigit h then some .badLength
      else
        match req.payload with
        | none => some .badJson
        | some (.obj fs) =>
          if sanitize_name (dictGet fs "name") = none then some .badName
          else if sanitize_email (dictGet fs "email") = none then some .badEmail
          else none
        | some _ => some .notDict

/-- `Bool` test for a produced (as opposed to propagated-fault) result. -/
def isOkResult (r : Except PyFault Response) : Bool :=
  match r with
  | .ok _ => true
  | .error _ => false

/-! ## General lemmas -/

theorem toLower_toLower (c : Char) : c.toLower.toLower = c.toLower := by
  unfold Char.toLower
  by_cases h : c.toNat ≥ 65 ∧ c.toNat ≤ 90
  · rw [if_pos h]
    have hv : (c.toNat + 32).isValidChar := by
      unfold Nat.isValidChar
      left
      omega
    have ht : (Char.ofNat (c.toNat + 32)).toNat = c.toNat + 32 := by
      rw [Char.ofNat, dif_pos hv]
      rfl
    rw [if_neg (by omega)]
  · rw [if_neg h, if_neg h]

theorem pyLower_pyLower (s : String) : pyLower (pyLower s) = pyLower s := by
  unfold pyLower
  refine congrArg String.mk ?_
  simp only [List.map_map]
  exact List.map_congr_left (fun c _ => toLower_toLower c)

theorem dropWhile_eq_self_of_all {p : Char → Bool} {l : List Char}
    (h : ∀ c ∈ l, p c = false) : l.dropWhile p = l := by
  cases l with
  | nil => rfl
  | cons c r =>
    rw [List.dropWhile_cons, if_neg]
    simp [h c (by simp)]

theorem pyStripList_eq_self_of_all {l : List Char}
    (h : ∀ c ∈ l, isPySpace c = false) : pyStripList l = l := by
  unfold pyStripList
  rw [dropWhile_eq_self_of_all h,
      dropWhile_eq_self_of_all (fun c hc => h c (List.mem_reverse.mp hc)),
      List.reverse_reverse]

theorem matchPlus_iff (k : List Char → Bool) (l : List Char) :
    matchPlus k l = true ↔
      ∃ p q, l = p ++ q ∧ p ≠ [] ∧ (∀ c ∈ p, atomChar c) ∧ k q = true := by
  induction l with
  | nil =>
    constructor
    · intro h
      exact absurd h (by simp [matchPlus])
    · rintro ⟨p, q, h, hp, -, -⟩
      exact absurd (List.append_eq_nil.mp h.symm).1 hp
  | cons c rest ih =>
    constructor
    · intro h
      simp only [matchPlus, Bool.and_eq_true, Bool.or_eq_true] at h
      obtain ⟨hc, hk | hm⟩ := h
      · exact ⟨[c], rest, rfl, by simp, by simpa using hc, hk⟩
      · obtain ⟨p, q, heq, hp, hall, hkq⟩ := ih.mp hm
        refine ⟨c :: p, q, by rw [heq]; rfl, by simp, ?_, hkq⟩
        intro x hx
        rcases List.mem_cons.mp hx with hx | hx
        · rw [hx]; exact hc
        · exact hall x hx
    · rintro ⟨p, q, heq, hp, hall, hkq⟩
      cases p with
      | nil => exact absurd rfl hp
      | cons a p2 =>
        obtain ⟨rfl, hrest⟩ : c = a ∧ rest = p2 ++ q := by
          constructor
          · exact (List.cons.injEq _ _ _ _ ▸ heq).1
          · exact (List.cons.injEq _ _ _ _ ▸ heq).2
        simp only [matchPlus, Bool.and_eq_true, Bool.or_eq_true]
        refine ⟨hall c (by simp), ?_⟩
        cases p2 with
        | nil =>
          left
          simpa [hrest] using hkq
        | cons b p3 =>
          right
          exact ih.mpr ⟨b :: p3, q, hrest, by simp, fun x hx => hall x (by simp [hx]), hkq⟩

theorem emailPatternMatch_iff_shape (s : String) :
    emailPatternMatch s = true ↔ emailShape s := by
  unfold emailPatternMatch emailShape
  constructor
  · intro h
    obtain ⟨l, q, hs, hl, hall, hk⟩ := (matchPlus_iff _ _).mp h
    cases q with
    | nil => exact absurd hk (by simp [emailAtK])
    | cons c r2 =>
      simp only [emailAtK, Bool.and_eq_true, beq_iff_eq] at hk
      obtain ⟨rfl, h2⟩ := hk
      obtain ⟨m, q2, hr2, hm, hallm, hk2⟩ := (matchPlus_iff _ _).mp h2
      cases q2 with
      | nil => exact absurd hk2 (by simp [emailDotK])
      | cons d r4 =>
        simp only [emailDotK, Bool.and_eq_true, beq_iff_eq] at hk2
        obtain ⟨rfl, h3⟩ := hk2
        unfold emailTailK at h3
        obtain ⟨t, q3, hr4, ht, hallt, hk3⟩ := (matchPlus_iff _ _).mp h3
        have hq3 : q3 = [] := by simpa using hk3
        refine ⟨l, m, t, ?_, hl, hm, ht, hall, hallm, hallt⟩
        rw [hs, hr2, hr4, hq3]
        simp
  · rintro ⟨l, m, t, hs, hl, hm, ht, hal, ham, hat⟩
    apply (matchPlus_iff _ _).mpr
    refine ⟨l, '@' :: (m ++ '.' :: t), hs, hl, hal, ?_⟩
    simp only [emailAtK, Bool.and_eq_true, beq_self_eq_true, true_and]
    apply (matchPlus_iff _ _).mpr
    refine ⟨m, '.' :: t, rfl, hm, ham, ?_⟩
    simp only [emailDotK, Bool.and_eq_true, beq_self_eq_true, true_and]
    unfold emailTailK
    apply (matchPlus_iff _ _).mpr
    exact ⟨t, [], by simp, ht, hat, by simp⟩

theorem atomChar_not_space {c : Char} (h : atomChar c = true) : isPySpace c = false := by
  unfold atomChar at h
  simp only [Bool.and_eq_true, Bool.not_eq_true'] at h
  exact h.1

theorem emailMatch_no_space {s : String} (h : emailPatternMatch s = true) :
    ∀ c ∈ s.data, isPySpace c = false := by
  obtain ⟨l, m, t, hs, -, -, -, hal, ham, hat⟩ := (emailPatternMatch_iff_shape s).mp h
  intro c hc
  rw [hs] at hc
  rcases List.mem_append.mp hc with hc | hc
  · exact atomChar_not_space (hal c hc)
  · rcases List.mem_cons.mp hc with rfl | hc
    · rfl
    · rcases List.mem_append.mp hc with hc | hc
      · exact atomChar_not_space (ham c hc)
      · rcases List.mem_cons.mp hc with rfl | hc
        · rfl
        · exact atomChar_not_space (hat c hc)

theorem sanitize_name_str (s : String) :
    sanitize_name (.str s) =
      (if 2 ≤ (pyStrip s).length then some (pyStrip s) else none) := rfl

theorem sanitize_email_str (s : String) :
    sanitize_email (.str s) =
      (if emailPatternMatch (pyLower (pyStrip s)) then some (pyLower (pyStrip s)) else none) := rfl

/-! ## Claims -/

/-- C3: for every input, `sanitize_name` returns the input with
surrounding whitespace trimmed when the trimmed result has length at
least 2, and returns invalid otherwise; absent/null input is invalid;
the one-character name "A" is rejected and "Al" is accepted. -/
theorem C3_sanitize_name_trims_and_requires_two_chars :
    (∀ s : String,
        (2 ≤ (pyStrip s).length ∧ sanitize_name (.str s) = some (pyStrip s)) ∨
        ((pyStrip s).length < 2 ∧ sanitize_name (.str s) = none)) ∧
    sanitize_name .null = none ∧
    sanitize_name (.str "A") = none ∧
    sanitize_name (.str "Al") = some "Al" := by
  refine ⟨fun s => ?_, rfl, rfl, rfl⟩
  by_cases h : 2 ≤ (pyStrip s).length
  · exact Or.inl ⟨h, by rw [sanitize_name_str, if_pos h]⟩
  · exact Or.inr ⟨by omega, by rw [sanitize_name_str, if_neg h]⟩

/-- C4: `sanitize_email` returns the trimmed, lower-cased input exactly
when that normalized string has the shape
`[^\s@]+ '@' [^\s@]+ '.' [^\s@]+`; any other input, including null, is
invalid. -/
theorem C4_sanitize_email_shape :
    (∀ s r : String,
        sanitize_email (.str s) = some r ↔ (r = pyLower (pyStrip s) ∧ emailShape r)) ∧
    sanitize_email .null = none := by
  refine ⟨fun s r => ?_, rfl⟩
  rw [sanitize_email_str]
  by_cases h : emailPatternMatch (pyLower (pyStrip s)) = true
  · rw [if_pos h]
    constructor
    · intro he
      obtain rfl := Option.some.inj he
      exact ⟨rfl, (emailPatternMatch_iff_shape _).mp h⟩
    · rintro ⟨rfl, -⟩
      rfl
  · rw [if_neg h]
    constructor
    · intro he
      exact absurd he (by simp)
    · rintro ⟨rfl, hsh⟩
      exact absurd ((emailPatternMatch_iff_shape _).mpr hsh) h

theorem C4_sanitize_email_shape_witness :
    sanitize_email (.str " A@b.C ") = some "a@b.c" ∧ emailShape "a@b.c" := by
  have he : sanitize_email (.str " A@b.C ") = some "a@b.c" := rfl
  exact ⟨he, ((C4_sanitize_email_shape.1 " A@b.C " "a@b.c").mp he).2⟩

/-- C5: email normalization is idempotent — if `sanitize_email` succeeds
with result `y`, it succeeds on `y` with result `y`; consequently
"  Foo@BAR.com " and "foo@bar.com" normalize to the same identity and
collide on the duplicate check (the second POST gets 409). -/
theorem C5_email_normalization_idempotent :
    (∀ x y : String, sanitize_email (.str x) = some y → sanitize_email (.str y) = some y) ∧
    sanitize_email (.str "  Foo@BAR.com ") = some "foo@bar.com" ∧
    sanitize_email (.str "foo@bar.com") = some "foo@bar.com" ∧
    (do_POST
        ⟨"/api/waitlist", some "64",
         some (.obj [("name", .str "Al"), ("email", .str "foo@bar.com")]), none⟩
        ⟨[⟨"Al", "foo@bar.com", 0⟩], 1, false⟩).map (fun p => p.1.status) = .ok 409 := by
  refine ⟨?_, rfl, rfl, rfl⟩
  intro x y h
  rw [sanitize_email_str] at h
  by_cases hm : emailPatternMatch (pyLower (pyStrip x)) = true
  · rw [if_pos hm] at h
    obtain rfl := Option.some.inj h
    have hnos := emailMatch_no_space hm
    have hstrip : pyStrip (pyLower (pyStrip x)) = pyLower (pyStrip x) :=
      calc pyStrip (pyLower (pyStrip x))
          = ⟨pyStripList (pyLower (pyStrip x)).data⟩ := rfl
        _ = ⟨(pyLower (pyStrip x)).data⟩ := by rw [pyStripList_eq_self_of_all hnos]
        _ = pyLower (pyStrip x) := rfl
    rw [sanitize_email_str, hstrip, pyLower_pyLower, if_pos hm]
  · rw [if_neg hm] at h
    exact absurd h (by simp)

theorem C5_email_normalization_idempotent_witness :
    sanitize_email (.str "foo@bar.com") = some "foo@bar.com" :=
  C5_email_normalization_idempotent.1 "  Foo@BAR.com " "foo@bar.com" rfl

/-- C10 (implicit): the sanitizers accept non-null, non-string JSON
values by coercing them with `str(...)` before validation — they behave
on `v` exactly as on the string rendering of `v`; e.g. the numeric name
`42` is accepted as the name "42", and a boolean or numeric email is
validated as its string rendering (and fails the pattern) rather than
being rejected for not being a string. -/
theorem C10_sanitizers_coerce_nonstring_values :
    (∀ v : JVal, v ≠ .null →
        sanitize_name v = sanitize_name (.str (pyStr v)) ∧
        sanitize_email v = sanitize_email (.str (pyStr v))) ∧
    sanitize_name (.num 42) = some "42" ∧
    sanitize_email (.bool true) = none ∧
    sanitize_email (.num 5) = none := by
  have hnum : pyStr (.num 42) = "42" := by
    show pyRepr (.num 42) = "42"
    simp only [pyRepr]
    rfl
  have hbool : pyStr (.bool true) = "True" := by
    show pyRepr (.bool true) = "True"
    simp [pyRepr]
  have hnum5 : pyStr (.num 5) = "5" := by
    show pyRepr (.num 5) = "5"
    simp only [pyRepr]
    rfl
  refine ⟨fun v hv => ?_, ?_, ?_, ?_⟩
  case refine_2 =>
    calc sanitize_name (.num 42) = sanitize_name (.str (pyStr (.num 42))) := rfl
      _ = sanitize_name (.str "42") := by rw [hnum]
      _ = some "42" := rfl
  case refine_3 =>
    calc sanitize_email (.bool true) = sanitize_email (.str (pyStr (.bool true))) := rfl
      _ = sanitize_email (.str "True") := by rw [hbool]
      _ = none := rfl
  case refine_4 =>
    calc sanitize_email (.num 5) = sanitize_email (.str (pyStr (.num 5))) := rfl
      _ = sanitize_email (.str "5") := by rw [hnum5]
      _ = none := rfl
  cases v with
  | null => exact absurd rfl hv
  | bool b => exact ⟨rfl, rfl⟩
  | num n => exact ⟨rfl, rfl⟩
  | str s => exact ⟨rfl, rfl⟩
  | arr xs => exact ⟨rfl, rfl⟩
  | obj fs => exact ⟨rfl, rfl⟩

theorem C10_sanitizers_coerce_nonstring_values_witness :
    sanitize_name (.num 42) = sanitize_name (.str (pyStr (.num 42))) :=
  (C10_sanitizers_coerce_nonstring_values.1 (.num 42) (by intro h; cases h)).1

theorem mem_escQuote (c : Char) (l : List Char) : c ∈ escQuote l ↔ c ∈ l := by
  induction l with
  | nil => simp [escQuote]
  | cons a r ih =>
    simp only [escQuote]
    by_cases ha : a == '"'
    · rw [if_pos ha]
      simp only [List.mem_cons, ih]
      tauto
    · rw [if_neg ha]
      simp [List.mem_cons, ih]

theorem escQuote_eq_self {l : List Char} (h : '"' ∉ l) : escQuote l = l := by
  induction l with
  | nil => rfl
  | cons a r ih =>
    have ha : (a == '"') = false := by
      refine beq_eq_false_iff_ne.mpr (fun hh => h ?_)
      rw [hh]
      exact List.mem_cons_self _ _
    simp only [escQuote, ha, if_neg]
    rw [ih (fun hr => h (List.mem_cons_of_mem _ hr))]
    simp

theorem contains_iff_mem (l : List Char) (c : Char) : l.contains c = true ↔ c ∈ l := by
  simp [List.contains, List.elem_iff]

theorem csvCell_escape (s : String) : csvCell (csvEscape s) = csvCellSpec s := by
  unfold csvCell csvCellSpec csvEscape
  by_cases h : ',' ∈ s.data ∨ '"' ∈ s.data
  · rw [if_pos h]
    have hb : (((⟨escQuote s.data⟩ : String).data.contains ',' ||
        (⟨escQuote s.data⟩ : String).data.contains '"') = true) := by
      rcases h with h | h
      · exact Bool.or_eq_true_iff.mpr (Or.inl ((contains_iff_mem _ _).mpr ((mem_escQuote _ _).mpr h)))
      · exact Bool.or_eq_true_iff.mpr (Or.inr ((contains_iff_mem _ _).mpr ((mem_escQuote _ _).mpr h)))
    rw [if_pos hb]
  · rw [if_neg h]
    push_neg at h
    have hq : '"' ∉ s.data := h.2
    have heq : escQuote s.data = s.data := escQuote_eq_self hq
    have hb : (((⟨escQuote s.data⟩ : String).data.contains ',' ||
        (⟨escQuote s.data⟩ : String).data.contains '"') = false) := by
      simp only [heq]
      refine Bool.or_eq_false_iff.mpr ⟨?_, ?_⟩
      · rw [← Bool.not_eq_true, contains_iff_mem]
        exact h.1
      · rw [← Bool.not_eq_true, contains_iff_mem]
        exact hq
    rw [if_neg (by rw [hb]; simp)]
    show (⟨escQuote s.data⟩ : String) = s
    rw [heq]

/-- C7: the CSV body has first line exactly `name,email,created_at`,
then one line per entry in the same order as the underlying list, where
each field has internal double quotes doubled and is wrapped in
surrounding double quotes exactly when it contains a comma or a double
quote, and is emitted bare otherwise. -/
theorem C7_csv_shaping (entries : List EntryDict) :
    csvData entries = csvBodySpec entries := by
  unfold csvData csvBodySpec
  have hline : ∀ e : EntryDict, csvLine e = csvLineSpec e := by
    intro e
    unfold csvLine csvLineSpec
    simp only [List.map_cons, List.map_nil, csvCell_escape]
  rw [List.map_congr_left (fun e _ => hline e)]
  have hhdr : String.intercalate "," ["name", "email", "created_at"] = "name,email,created_at" := rfl
  rw [hhdr]

theorem insertDesc_all_lt (x : Row) (l : List Row)
    (h : ∀ y ∈ l, x.created_at < y.created_at) :
    insertDesc x l = l ++ [x] := by
  induction l with
  | nil => rfl
  | cons y ys ih =>
    have hy := h y (List.mem_cons_self _ _)
    simp only [insertDesc]
    rw [if_neg (by omega), ih (fun z hz => h z (List.mem_cons_of_mem _ hz))]
    rfl

theorem sortDesc_of_increasing (l : List Row)
    (h : l.Pairwise (fun a b => a.created_at < b.created_at)) :
    sortDesc l = l.reverse := by
  induction l with
  | nil => rfl
  | cons x xs ih =>
    rw [List.pairwise_cons] at h
    simp only [sortDesc]
    rw [ih h.2, insertDesc_all_lt x xs.reverse (fun y hy => h.1 y (List.mem_reverse.mp hy))]
    simp

theorem waitlist_count_ok (s : Store) (hf : s.failing = false) :
    waitlist_count s = .ok s.rows.length := by
  unfold waitlist_count
  rw [hf]
  simp

theorem waitlist_entries_ok (s : Store) (lim : Option Int) (hf : s.failing = false)
    (hp : s.rows.Pairwise (fun a b => a.created_at < b.created_at)) :
    waitlist_entries lim s =
      .ok (match lim with
           | some l => if 0 < l then (s.rows.reverse.map rowDict).take l.toNat
                       else s.rows.reverse.map rowDict
           | none => s.rows.reverse.map rowDict) := by
  unfold waitlist_entries
  rw [hf]
  simp only [Bool.false_eq_true, if_false]
  rw [sortDesc_of_increasing _ hp]
  cases lim with
  | none => rfl
  | some l =>
    by_cases hl : 0 < l
    · simp only [if_pos hl]
      rw [List.map_take]
    · simp only [if_neg hl]

/-- C6: `waitlist_entries` returns the stored records newest first by
creation time; an absent or non-positive limit returns all rows and a
positive limit caps the result; at the HTTP layer a `limit` query
parameter that is not a positive integer is ignored (treated as absent),
so all rows are returned. -/
theorem C6_entries_ordering_and_limit :
    (∀ (s : Store) (lim : Option Int), s.failing = false →
        s.rows.Pairwise (fun a b => a.created_at < b.created_at) →
        waitlist_entries lim s =
          .ok (match lim with
               | some l => if 0 < l then (s.rows.reverse.map rowDict).take l.toNat
                           else s.rows.reverse.map rowDict
               | none => s.rows.reverse.map rowDict)) ∧
    (∀ (q : List (String × String)) (v : String), qlookup q "limit" = some v →
        (pyInt v = none ∨ ∀ i : Int, pyInt v = some i → i ≤ 0) →
        limitOf q = none) ∧
    (∀ (req : GetRequest) (s : Store), s.failing = false →
        s.rows.Pairwise (fun a b => a.created_at < b.created_at) →
        pathNorm req.path = "/api/waitlist/entries" →
        formatOf req.query ≠ "csv" →
        limitOf req.query = none →
        do_GET req s =
          .ok (json_response req.origin
            (.obj [("entries", .arr ((s.rows.reverse.map rowDict).map entryJson)),
                   ("count", .num (s.rows.length : Int)),
                   ("limit", .null)]) 200)) := by
  refine ⟨fun s lim hf hp => waitlist_entries_ok s lim hf hp, ?_, ?_⟩
  · intro q v hv hbad
    unfold limitOf
    rw [hv]
    cases hpi : pyInt v with
    | none => simp [hpi]
    | some i =>
      rcases hbad with hb | hb
      · rw [hb] at hpi
        cases hpi
      · simp [hpi, hb i hpi]
  · intro req s hf hp hpath hfmt hlim
    unfold do_GET
    rw [hpath, if_neg (by decide), if_neg (by decide), if_pos rfl, hlim,
        waitlist_entries_ok s none hf hp]
    show (if formatOf req.query = "csv" then _ else _) = _
    rw [if_neg hfmt, waitlist_count_ok s hf]
    rfl

theorem C6_entries_ordering_and_limit_witness :
    do_GET ⟨"/api/waitlist/entries", [("limit", "abc")], none⟩
        ⟨[⟨"Ann", "a@b.c", 0⟩, ⟨"Bob", "b@b.c", 1⟩], 2, false⟩ =
      .ok (json_response none
        (.obj [("entries", .arr ((([⟨"Ann", "a@b.c", 0⟩, ⟨"Bob", "b@b.c", 1⟩] :
                  List Row).reverse.map rowDict).map entryJson)),
               ("count", .num (2 : Int)),
               ("limit", .null)]) 200) := by
  have h := C6_entries_ordering_and_limit.2.2
    ⟨"/api/waitlist/entries", [("limit", "abc")], none⟩
    ⟨[⟨"Ann", "a@b.c", 0⟩, ⟨"Bob", "b@b.c", 1⟩], 2, false⟩
    rfl (by simp [List.pairwise_cons]) rfl (by decide) rfl
  exact h

theorem allowed_origin_eq_spec (o : Option String) :
    allowed_origin o = allowedOriginSpec o := by
  cases o with
  | none => rfl
  | some s =>
    unfold allowed_origin allowedOriginSpec
    by_cases h1 : s = ""
    · simp [h1]
    · by_cases h2 : s = "null"
      · simp [h1, h2]
      · simp [h1, h2]

theorem do_GET_allowOrigin (req : GetRequest) (s : Store) (r : Response)
    (h : do_GET req s = .ok r) : r.allowOrigin = allowed_origin req.origin := by
  unfold do_GET at h
  repeat' split at h
  all_goals
    first
      | exact Except.noConfusion h
      | (injection h with h2; subst h2; rfl)

theorem do_POST_allowOrigin (req : PostRequest) (s : Store) (r : Response) (s2 : Store)
    (h : do_POST req s = .ok (r, s2)) : r.allowOrigin = allowed_origin req.origin := by
  unfold do_POST at h
  repeat' split at h
  all_goals
    first
      | exact Except.noConfusion h
      | (injection h with h2; injection h2 with ha hb; subst ha; rfl)

/-- C8 (amended): every produced response carries an
`Access-Control-Allow-Origin` equal to the request's `Origin` header
verbatim, unless that header is absent, empty, or the literal string
"null", in which case it is `*`. -/
theorem C8_cors_allow_origin :
    (∀ o : Option String, allowed_origin o = allowedOriginSpec o) ∧
    (∀ (req : GetRequest) (s : Store) (r : Response),
        do_GET req s = .ok r → r.allowOrigin = allowedOriginSpec req.origin) ∧
    (∀ (req : PostRequest) (s : Store) (r : Response) (s2 : Store),
        do_POST req s = .ok (r, s2) → r.allowOrigin = allowedOriginSpec req.origin) ∧
    (∀ o : Option String, (do_OPTIONS o).allowOrigin = allowedOriginSpec o) := by
  refine ⟨allowed_origin_eq_spec, ?_, ?_, ?_⟩
  · intro req s r h
    rw [do_GET_allowOrigin req s r h, allowed_origin_eq_spec]
  · intro req s r s2 h
    rw [do_POST_allowOrigin req s r s2 h, allowed_origin_eq_spec]
  · intro o
    show allowed_origin o = allowedOriginSpec o
    exact allowed_origin_eq_spec o

theorem C8_cors_allow_origin_witness :
    (json_response (some "http://x.test") (.obj [("status", .str "ok")]) 200).allowOrigin =
      allowedOriginSpec (some "http://x.test") :=
  C8_cors_allow_origin.2.1 ⟨"/health", [], some "http://x.test"⟩ ⟨[], 0, false⟩ _ rfl

/-- C8 counterexample: an `Origin` header that is present but empty is
echoed back as `*`, not verbatim — `if not origin` treats the empty
string as falsy — contradicting the claim that every present,
non-"null" origin is echoed verbatim. -/
theorem C8_cors_counterexample_empty_origin :
    (do_OPTIONS (some "")).allowOrigin = "*" ∧
    some "" ≠ (none : Option String) ∧
    ("" : String) ≠ "null" ∧
    ("*" : String) ≠ "" := by
  exact ⟨rfl, by simp, by decide, by decide⟩

theorem waitlist_count_err (s : Store) (hf : s.failing = true) :
    waitlist_count s = .error (.db "connection failure") := by
  unfold waitlist_count
  rw [hf]
  simp

theorem waitlist_entries_err (s : Store) (lim : Option Int) (hf : s.failing = true) :
    waitlist_entries lim s = .error (.db "connection failure") := by
  unfold waitlist_entries
  rw [hf]
  simp

theorem insert_err (s : Store) (n e : String) (hf : s.failing = true) :
    insert_waitlist_record s n e = .error (.db "connection failure") := by
  unfold insert_waitlist_record
  rw [hf]
  simp

theorem insert_dup (s : Store) (n e : String) (hf : s.failing = false)
    (hdup : ∃ r ∈ s.rows, r.email = e) :
    insert_waitlist_record s n e = .error (.db "UNIQUE constraint failed: waitlist.email") := by
  unfold insert_waitlist_record
  rw [hf]
  obtain ⟨r, hr, he⟩ := hdup
  have hany : s.rows.any (fun r => r.email == e) = true :=
    List.any_eq_true.mpr ⟨r, hr, beq_iff_eq.mpr he⟩
  rw [if_neg (by simp), if_pos hany]

theorem insert_fresh (s : Store) (n e : String) (hf : s.failing = false)
    (hfresh : ∀ r ∈ s.rows, r.email ≠ e) :
    insert_waitlist_record s n e = .ok ⟨s.rows ++ [⟨n, e, s.clock⟩], s.clock + 1, false⟩ := by
  unfold insert_waitlist_record
  rw [hf]
  have hany : s.rows.any (fun r => r.email == e) = false := by
    rw [← Bool.not_eq_true, List.any_eq_true]
    rintro ⟨r, hr, he⟩
    exact hfresh r hr (beq_iff_eq.mp he)
  rw [if_neg (by simp), if_neg (by simp [hany])]

/-- `do_POST` on a request that passes all input checks reduces to the
storage-insert outcome handling. -/
theorem do_POST_valid (origin : Option String) (cl path : String)
    (fs : List (String × JVal)) (s : Store) (n e : String)
    (hpath : pyRstripSlash path = "/api/waitlist")
    (hcl : pyIsdigit cl = true)
    (hname : sanitize_name (dictGet fs "name") = some n)
    (hemail : sanitize_email (dictGet fs "email") = some e) :
    do_POST ⟨path, some cl, some (.obj fs), origin⟩ s =
      match insert_waitlist_record s n e with
      | .error f =>
        if containsSub (pyLower (faultText f)).data "unique".data ||
           containsSub (pyLower (faultText f)).data "duplicate".data then
          match waitlist_count s with
          | .error f2 => .error f2
          | .ok c =>
            .ok (json_response origin
              (.obj [("message", .str "This email is already on the waitlist."),
                     ("count", .num (c : Int))]) 409, s)
        else
          .ok (json_response origin
            (.obj [("error", .str "We hit a snag saving your request.")]) 500, s)
      | .ok s2 =>
        match waitlist_count s2 with
        | .error f2 => .error f2
        | .ok c =>
          .ok (json_response origin
            (.obj [("message", .str "You\x27re on the waitlist! We\x27ll reach out as invites roll out."),
                   ("email", .str e),
                   ("count", .num (c : Int))]) 201, s2) := by
  unfold do_POST
  rw [if_neg (by rw [hpath]; simp)]
  dsimp only [pyGet]
  rw [hcl]
  rw [if_neg (by decide)]
  rw [hname, hemail]

/-- C9 (amended): only the `insert_waitlist_record` call in `do_POST`
sits inside `try`/`except`, so a storage error during a valid POST is
caught and converted to a 500 JSON response; storage errors raised while
handling GET `/api/waitlist` or GET `/api/waitlist/entries` are not
caught in the handler and propagate to the server framework instead of
producing a 500 JSON response. -/
theorem C9_storage_error_handling :
    (∀ (req : GetRequest) (s : Store), s.failing = true →
        (pathNorm req.path = "/api/waitlist" ∨ pathNorm req.path = "/api/waitlist/entries") →
        do_GET req s = .error (.db "connection failure")) ∧
    (∀ (origin : Option String) (cl path : String) (fs : List (String × JVal))
        (s : Store) (n e : String),
        s.failing = true →
        pyRstripSlash path = "/api/waitlist" →
        pyIsdigit cl = true →
        sanitize_name (dictGet fs "name") = some n →
        sanitize_email (dictGet fs "email") = some e →
        do_POST ⟨path, some cl, some (.obj fs), origin⟩ s =
          .ok (json_response origin
            (.obj [("error", .str "We hit a snag saving your request.")]) 500, s)) := by
  constructor
  · intro req s hf hpath
    unfold do_GET
    rcases hpath with hp | hp
    · rw [hp, if_neg (by decide), if_pos rfl, waitlist_count_err s hf]
    · rw [hp, if_neg (by decide), if_neg (by decide), if_pos rfl,
          waitlist_entries_err s (limitOf req.query) hf]
  · intro origin cl path fs s n e hf hpath hcl hname hemail
    rw [do_POST_valid origin cl path fs s n e hpath hcl hname hemail,
        insert_err s n e hf]
    dsimp only [faultText]
    rw [if_neg (by decide)]

theorem C9_storage_error_handling_witness :
    do_GET ⟨"/api/waitlist", [], none⟩ ⟨[], 0, true⟩ = .error (.db "connection failure") ∧
    do_POST ⟨"/api/waitlist", some "5",
        some (.obj [("name", .str "Al"), ("email", .str "a@b.c")]), none⟩ ⟨[], 0, true⟩ =
      .ok (json_response none
        (.obj [("error", .str "We hit a snag saving your request.")]) 500, ⟨[], 0, true⟩) :=
  ⟨C9_storage_error_handling.1 ⟨"/api/waitlist", [], none⟩ ⟨[], 0, true⟩ rfl (Or.inl rfl),
   C9_storage_error_handling.2 none "5" "/api/waitlist"
     [("name", .str "Al"), ("email", .str "a@b.c")] ⟨[], 0, true⟩ "Al" "a@b.c"
     rfl rfl rfl rfl rfl⟩

/-- C9 counterexample: a storage error during GET `/api/waitlist` is not
converted into any response at all — the handler produces no 500 JSON;
the exception propagates out of `do_GET` (there is no `try`/`except`
around the storage calls in the GET handler). -/
theorem C9_counterexample_get_unhandled :
    do_GET ⟨"/api/waitlist", [], none⟩ ⟨[⟨"Ann", "a@b.c", 0⟩], 1, true⟩ =
      .error (.db "connection failure") ∧
    isOkResult (do_GET ⟨"/api/waitlist", [], none⟩ ⟨[⟨"Ann", "a@b.c", 0⟩], 1, true⟩) = false :=
  ⟨rfl, rfl⟩

/-- C1: a POST whose normalized email already exists in the store gets
409 with body `message`/`count`, the count equalling the pre-attempt
count, and the store is unchanged; inserting the same normalized email
twice yields 201 then 409, with the count unchanged by the failed
second attempt. -/
theorem C1_duplicate_email_conflict :
    ∀ (origin : Option String) (cl path : String) (fs : List (String × JVal))
      (s : Store) (n e : String),
      pyRstripSlash path = "/api/waitlist" →
      pyIsdigit cl = true →
      sanitize_name (dictGet fs "name") = some n →
      sanitize_email (dictGet fs "email") = some e →
      s.failing = false →
      ((∃ r ∈ s.rows, r.email = e) →
        do_POST ⟨path, some cl, some (.obj fs), origin⟩ s =
          .ok (json_response origin
            (.obj [("message", .str "This email is already on the waitlist."),
                   ("count", .num (s.rows.length : Int))]) 409, s)) ∧
      ((∀ r ∈ s.rows, r.email ≠ e) →
        do_POST ⟨path, some cl, some (.obj fs), origin⟩ s =
          .ok (json_response origin
            (.obj [("message", .str "You\x27re on the waitlist! We\x27ll reach out as invites roll out."),
                   ("email", .str e),
                   ("count", .num ((s.rows.length + 1 : Nat) : Int))]) 201,
            ⟨s.rows ++ [⟨n, e, s.clock⟩], s.clock + 1, false⟩) ∧
        do_POST ⟨path, some cl, some (.obj fs), origin⟩
            ⟨s.rows ++ [⟨n, e, s.clock⟩], s.clock + 1, false⟩ =
          .ok (json_response origin
            (.obj [("message", .str "This email is already on the waitlist."),
                   ("count", .num ((s.rows.length + 1 : Nat) : Int))]) 409,
            ⟨s.rows ++ [⟨n, e, s.clock⟩], s.clock + 1, false⟩)) := by
  intro origin cl path fs s n e hpath hcl hname hemail hf
  refine ⟨fun hdup => ?_, fun hfresh => ⟨?_, ?_⟩⟩
  · rw [do_POST_valid origin cl path fs s n e hpath hcl hname hemail,
        insert_dup s n e hf hdup]
    dsimp only [faultText]
    rw [if_pos (by decide), waitlist_count_ok s hf]
  · rw [do_POST_valid origin cl path fs s n e hpath hcl hname hemail,
        insert_fresh s n e hf hfresh]
    dsimp only
    rw [waitlist_count_ok (Store.mk (s.rows ++ [Row.mk n e s.clock]) (s.clock + 1) false) rfl]
    dsimp only
    simp [List.length_append]
  · have hdup2 : ∃ r ∈ (Store.mk (s.rows ++ [Row.mk n e s.clock]) (s.clock + 1) false).rows,
        r.email = e := ⟨Row.mk n e s.clock, by simp, rfl⟩
    rw [do_POST_valid origin cl path fs
          (Store.mk (s.rows ++ [Row.mk n e s.clock]) (s.clock + 1) false) n e hpath hcl hname hemail,
        insert_dup _ n e rfl hdup2]
    dsimp only [faultText]
    rw [if_pos (by decide), waitlist_count_ok _ rfl]
    simp [List.length_append]

theorem C1_duplicate_email_conflict_witness :
    do_POST ⟨"/api/waitlist", some "9",
        some (.obj [("name", .str "Al"), ("email", .str "a@b.c")]), none⟩ ⟨[], 0, false⟩ =
      .ok (json_response none
        (.obj [("message", .str "You\x27re on the waitlist! We\x27ll reach out as invites roll out."),
               ("email", .str "a@b.c"),
               ("count", .num (1 : Int))]) 201, ⟨[⟨"Al", "a@b.c", 0⟩], 1, false⟩) ∧
    do_POST ⟨"/api/waitlist", some "9",
        some (.obj [("name", .str "Al"), ("email", .str "a@b.c")]), none⟩
        ⟨[⟨"Al", "a@b.c", 0⟩], 1, false⟩ =
      .ok (json_response none
        (.obj [("message", .str "This email is already on the waitlist."),
               ("count", .num (1 : Int))]) 409, ⟨[⟨"Al", "a@b.c", 0⟩], 1, false⟩) :=
  (C1_duplicate_email_conflict none "9" "/api/waitlist"
    [("name", .str "Al"), ("email", .str "a@b.c")] ⟨[], 0, false⟩ "Al" "a@b.c"
    rfl rfl rfl rfl rfl).2 (by simp)

/-- The response the (amended) claim C2 assigns to each failing check. -/
def postCheckResponse (origin : Option String) (s : Store) :
    PostCheckFailure → Except PyFault (Response × Store)
  | .badLength =>
    .ok (json_response origin (.obj [("error", .str "Missing Content-Length")]) 411, s)
  | .badJson =>
    .ok (json_response origin (.obj [("error", .str "Invalid JSON payload")]) 400, s)
  | .notDict => .error .attrError
  | .badName =>
    .ok (json_response origin
      (.obj [("error", .str "Please share your name so we can personalize the rollout.")]) 400, s)
  | .badEmail =>
    .ok (json_response origin
      (.obj [("error", .str "A valid email is required to join the waitlist.")]) 400, s)

/-- C2 (amended): for every POST to `/api/waitlist`, the failure checks
run in priority order — (1) missing/non-numeric `Content-Length` → 411;
(2) invalid JSON → 400; (2b) valid JSON that is not an object → the
handler raises `AttributeError` (unhandled), because `payload.get` is
called on a non-dict; (3) invalid name → 400 with the name message (even
when the email is also invalid); (4) invalid email → 400 with the email
message — and the first failing check determines the outcome. -/
theorem C2_post_check_priority :
    ∀ (req : PostRequest) (s : Store) (f : PostCheckFailure),
      postFirstFailure req = some f →
      do_POST req s = postCheckResponse req.origin s f := by
  intro req s f h
  obtain ⟨path, cl, payload, origin⟩ := req
  unfold postFirstFailure at h
  unfold do_POST
  by_cases hpath : pyRstripSlash path ≠ "/api/waitlist"
  · rw [if_pos hpath] at h
    cases h
  · rw [if_neg hpath] at h
    rw [if_neg hpath]
    cases cl with
    | none =>
      obtain rfl := Option.some.inj h
      rfl
    | some clv =>
      dsimp only at h ⊢
      by_cases hd : pyIsdigit clv = true
      · have hneg : ¬((!pyIsdigit clv) = true) := by
          rw [hd]
          decide
        rw [if_neg hneg] at h
        rw [if_neg hneg]
        cases payload with
        | none =>
          obtain rfl := Option.some.inj h
          rfl
        | some p =>
          cases p with
          | obj fsx =>
            dsimp only [pyGet] at h ⊢
            by_cases hn : sanitize_name (dictGet fsx "name") = none
            · rw [if_pos hn] at h
              obtain rfl := Option.some.inj h
              rw [hn]
              rfl
            · by_cases he : sanitize_email (dictGet fsx "email") = none
              · rw [if_neg hn, if_pos he] at h
                obtain rfl := Option.some.inj h
                obtain ⟨nv, hnv⟩ := Option.ne_none_iff_exists'.mp hn
                rw [hnv, he]
                rfl
              · rw [if_neg hn, if_neg he] at h
                cases h
          | null =>
            obtain rfl := Option.some.inj h
            rfl
          | bool b =>
            obtain rfl := Option.some.inj h
            rfl
          | num nv =>
            obtain rfl := Option.some.inj h
            rfl
          | str sv =>
            obtain rfl := Option.some.inj h
            rfl
          | arr xs =>
            obtain rfl := Option.some.inj h
            rfl
      · have hfd : pyIsdigit clv = false := by
          revert hd
          cases pyIsdigit clv <;> simp
        have hpos : (!pyIsdigit clv) = true := by
          rw [hfd]
          rfl
        rw [if_pos hpos] at h
        rw [if_pos hpos]
        obtain rfl := Option.some.inj h
        rfl

theorem C2_post_check_priority_witness :
    do_POST ⟨"/api/waitlist", some "44",
        some (.obj [("name", .str "A"), ("email", .str "bad")]), none⟩ ⟨[], 0, false⟩ =
      postCheckResponse none ⟨[], 0, false⟩ .badName :=
  C2_post_check_priority
    ⟨"/api/waitlist", some "44",
      some (.obj [("name", .str "A"), ("email", .str "bad")]), none⟩
    ⟨[], 0, false⟩ .badName rfl

/-- C2 counterexample: a POST whose body is valid JSON but not an
object (here the number `5`) passes checks (1) and (2); the claim then
requires a 400 name-sanitization response, but `payload.get("name")`
raises `AttributeError`, which nothing catches — the handler produces no
response at all. -/
theorem C2_counterexample_nondict_json :
    do_POST ⟨"/api/waitlist", some "1", some (.num 5), none⟩ ⟨[], 0, false⟩ =
      .error .attrError ∧
    (Except.error .attrError : Except PyFault (Response × Store)) ≠
      .ok (json_response none
        (.obj [("error", .str "Please share your name so we can personalize the rollout.")]) 400,
        ⟨[], 0, false⟩) :=
  ⟨rfl, fun h => Except.noConfusion h⟩
